import Mathlib

/-
Verification of the event-distribution and session-consistency layer of the
Roo-Code-With-CLI repository.

The development shallowly embeds the relevant routines:
  - `src/src/exports/api.ts`: the `API` class's `sendIpcEvent` event router,
    `registerClientForTask`, and the `StartNewTask` IPC command handler's
    subscription registration (the `taskIdToClientIdMap`).
  - `src/src/services/ipc/CliBridgeServer.ts`: `handleCliMessage` and
    `broadcastMessage` over the `connectedClients` registry.
  - `src/roocli/src/ipcClient.ts` (`IpcClient`): `connect`, the close handler
    and `scheduleReconnect`.
  - `src/roocli/src/repl.ts` (`Repl`): `generateMessageId`,
    `isDuplicateMessage`, `handleStreamedContent`, `isDuplicateAskMessage`,
    `handleInteractiveAsk`, and the ask-state reset in `startNewTask`.
  - `src/roocli/src/scripting.ts` (`Scripting`): `execute`'s timeout,
    `setupEventHandlers` and the overridden `complete`.

JavaScript strings are modelled as lists of UTF-16 code units (`JsStr`),
matching what `charCodeAt`, `startsWith` and `slice` operate on.  Stateful
methods become pure functions from a state structure to a new state paired
with a list of observable actions (socket writes, log lines, prompts).
-/

namespace RooSpec

/-! ## JavaScript string model -/

/-- A JavaScript string as its sequence of UTF-16 code units. -/
abbrev JsStr := List Nat

/-- The modulus of JavaScript 32-bit integer coercion. -/
def U32 : Nat := 4294967296

/-- Model of `Repl.generateMessageId` from `src/roocli/src/repl.ts`: the
Java-style rolling hash `hash = (hash << 5) - hash + char` with coercion to a
32-bit integer after every step.  Each step is congruent to
`31 * hash + char` modulo `2 ^ 32`, so the residue below determines the
produced id: the source renders the signed 32-bit value with `toString`,
which is injective on residues, and the id is only ever compared for
equality.  The source's early return of `"0"` on empty input agrees with the
fold. -/
def generateMessageId (s : JsStr) : Nat :=
  s.foldl (fun h c => (31 * h + c) % U32) 0

/-- Model of JavaScript `s.startsWith(p)` on code-unit sequences. -/
def jsStartsWith : JsStr → JsStr → Bool
  | _, [] => true
  | [], _ :: _ => false
  | c :: s, p :: ps => c == p && jsStartsWith s ps

/-! ## Event router: `API.sendIpcEvent` and the subscription table

From `src/src/exports/api.ts`.  The `taskIdToClientIdMap` is a JavaScript
`Map` from task id to an array of client ids; it is modelled as an
association list preserving insertion order (as the `Map` iteration order
does).  `connectedClients` models `this.ipc.getConnectedClients()`. -/

/-- The designated default subscriber id (`API.WEBVIEW_CLIENT_ID`). -/
def WEBVIEW_CLIENT_ID : String := "webview-ui"

/-- Lookup in the subscription table (JavaScript `Map.get`). -/
def mapGet (m : List (String × List String)) (k : String) : Option (List String) :=
  match m with
  | [] => none
  | (k2, v) :: rest => if k2 = k then some v else mapGet rest k

/-- Update in the subscription table (JavaScript `Map.set`): replaces the
value of an existing key in place, otherwise appends the new entry. -/
def mapSet (m : List (String × List String)) (k : String) (v : List String) :
    List (String × List String) :=
  match m with
  | [] => [(k, v)]
  | (k2, w) :: rest => if k2 = k then (k2, v) :: rest else (k2, w) :: mapSet rest k v

/-- The state of the `API` instance that `sendIpcEvent` reads and writes. -/
structure ApiState where
  taskIdToClientIdMap : List (String × List String)
  connectedClients : List String
deriving DecidableEq

/-- One delivery performed by the router.  `sendTo c` covers both
`this.ipc.send(clientId, message)` and the WebSocket route through
`cliBridgeServer.sendMessageToClientById` (the target client id is the same
either way); `broadcastAll` is `this.ipc.broadcast(message)`. -/
inductive EmitTarget
  | sendTo (clientId : String)
  | broadcastAll
deriving DecidableEq

/-- Model of `API.sendIpcEvent` (api.ts lines 148 to 338), restricted to a
`taskId` that is present and an active IPC server (otherwise the function
returns without effect).  The event name and payload do not influence the
routing state, so they are elided.  Returns the updated state and the list
of deliveries. -/
def sendIpcEvent (st : ApiState) (taskId : String) : ApiState × List EmitTarget :=
  let clientIds0 := (mapGet st.taskIdToClientIdMap taskId).getD []
  -- Always ensure webview is included
  let clientIds :=
    if WEBVIEW_CLIENT_ID ∈ clientIds0 then clientIds0
    else clientIds0 ++ [WEBVIEW_CLIENT_ID]
  let m1 :=
    if WEBVIEW_CLIENT_ID ∈ clientIds0 then st.taskIdToClientIdMap
    else mapSet st.taskIdToClientIdMap taskId clientIds
  if clientIds.length > 0 then
    ({ st with taskIdToClientIdMap := m1 }, clientIds.map EmitTarget.sendTo)
  else
    -- Fallback: no client found for this task, attempt a broadcast
    if st.connectedClients.length > 0 then
      let all :=
        if WEBVIEW_CLIENT_ID ∈ st.connectedClients then st.connectedClients
        else st.connectedClients ++ [WEBVIEW_CLIENT_ID]
      ({ st with taskIdToClientIdMap := mapSet m1 taskId all }, all.map EmitTarget.sendTo)
    else
      -- `ipc.broadcast` path; `connectedClients` is re-read and is still
      -- empty here, so the table is not updated on this path
      ({ st with taskIdToClientIdMap := m1 }, [EmitTarget.broadcastAll])

/-- Model of `API.registerClientForTask` (api.ts lines 536 to 574).  Whether
or not a provider is found for the task, the final table entry is the old
entry (or `[]`) extended with `clientId` and then the webview id, each only
if absent; the intermediate `set(taskId, [])` for an unknown task stores the
same array object that the pushes then mutate. -/
def registerClientForTask (st : ApiState) (taskId clientId : String) : ApiState :=
  let cs0 := (mapGet st.taskIdToClientIdMap taskId).getD []
  let cs1 := if clientId ∈ cs0 then cs0 else cs0 ++ [clientId]
  let cs2 := if WEBVIEW_CLIENT_ID ∈ cs1 then cs1 else cs1 ++ [WEBVIEW_CLIENT_ID]
  { st with taskIdToClientIdMap := mapSet st.taskIdToClientIdMap taskId cs2 }

/-- Model of the `CliCommandName.StartNewTask` handler's registration
(api.ts line 79): on successful task creation the handler overwrites the
entry with exactly the originating client and the webview id. -/
def startNewTaskRegister (st : ApiState) (taskId clientId : String) : ApiState :=
  { st with taskIdToClientIdMap :=
      mapSet st.taskIdToClientIdMap taskId [clientId, WEBVIEW_CLIENT_ID] }

/-- The three subscription-table operations named by the invariant claim. -/
inductive ApiOp
  | startNewTask (taskId clientId : String)
  | registerClient (taskId clientId : String)
  | emit (taskId : String)

/-- Effect of one operation on the router state. -/
def applyOp (st : ApiState) : ApiOp → ApiState
  | .startNewTask t c => startNewTaskRegister st t c
  | .registerClient t c => registerClientForTask st t c
  | .emit t => (sendIpcEvent st t).1

/-- The spec's subscription-table invariant: the default subscriber belongs
to every non-empty subscription set. -/
def webviewInvariant (st : ApiState) : Prop :=
  ∀ p ∈ st.taskIdToClientIdMap, p.2 ≠ [] → WEBVIEW_CLIENT_ID ∈ p.2

/-- States of the subscription table reachable through the three operations,
starting from an empty table; the connected-client set may change at any
time (clients connect and disconnect independently of the table). -/
inductive ReachableTable : ApiState → Prop
  | init (connected : List String) : ReachableTable ⟨[], connected⟩
  | step (st : ApiState) (op : ApiOp) :
      ReachableTable st → ReachableTable (applyOp st op)
  | setClients (st : ApiState) (cs : List String) :
      ReachableTable st → ReachableTable ⟨st.taskIdToClientIdMap, cs⟩

/-! ## Bridge server: `CliBridgeServer`

From `src/src/services/ipc/CliBridgeServer.ts`.  The registry
`connectedClients` maps client ids to WebSocket objects; each socket is
modelled by its observable `readyState` and by whether a write on it errors
(the environment's choice, surfaced through the `send` callback). -/

/-- A registry entry: the client id with the observable state of its socket
for the step being modelled. -/
structure WsClientConn where
  id : String
  readyState : Nat
  sendFails : Bool
deriving DecidableEq

/-- The `WebSocket.OPEN` ready state. -/
def WS_OPEN : Nat := 1

/-- Observable actions of the bridge server. -/
inductive ServerAct
  | logError (clientId : String)
  | logWarn (clientId : String)
  | warnNoClients
  | sendErrorNotice (clientId : String)
  | forwardToProvider (clientId : String)
  | registerClient (taskId : String) (clientId : String)
  | sendPayload (clientId : String)
  | closeConnection (clientId : String)
deriving DecidableEq

/-- The parts of a parsed CLI message that drive `handleCliMessage`. -/
structure CliParsedMessage where
  taskId : Option String
deriving DecidableEq

/-- Model of `CliBridgeServer.handleCliMessage` (CliBridgeServer.ts lines
171 to 210).  `parsed = none` models an inbound message on which
`JSON.parse` (or the downstream handling) throws: the `catch` branch logs
the failure and sends an error notice back to the same client.  `parsed =
some m` is the success path: an embedded task id triggers registration, and
the message is forwarded to the provider when its reference is alive.  The
registry is returned unchanged in every case: this handler neither closes a
socket nor deletes a registry entry. -/
def handleCliMessage (clients : List WsClientConn) (clientId : String)
    (parsed : Option CliParsedMessage) (providerAlive : Bool) :
    List WsClientConn × List ServerAct :=
  match parsed with
  | some m =>
    let regActs : List ServerAct :=
      match m.taskId with
      | some t => [ServerAct.registerClient t clientId]
      | none => []
    let fwd : List ServerAct :=
      if providerAlive then [ServerAct.forwardToProvider clientId]
      else [ServerAct.logWarn clientId]
    (clients, regActs ++ fwd)
  | none =>
    (clients, [ServerAct.logError clientId, ServerAct.sendErrorNotice clientId])

/-- The per-client body of the `forEach` in `broadcastMessage`
(CliBridgeServer.ts lines 244 to 261), folded over the registry in order:
an open socket is written to, and a write error is only logged (the removal
is commented out in the source); a non-open socket is warned about and its
entry removed without a write. -/
def dispatchLoop : List WsClientConn → List WsClientConn × List ServerAct
  | [] => ([], [])
  | c :: rest =>
    let r := dispatchLoop rest
    if c.readyState = WS_OPEN then
      if c.sendFails then
        (c :: r.1, ServerAct.sendPayload c.id :: ServerAct.logError c.id :: r.2)
      else
        (c :: r.1, ServerAct.sendPayload c.id :: r.2)
    else
      (r.1, ServerAct.logWarn c.id :: r.2)

/-- Model of `CliBridgeServer.broadcastMessage` (CliBridgeServer.ts lines
213 to 262) with the server running.  `msgTaskId` models the task id
extracted from a `state` message, which first re-registers every connected
client for that task; then the dispatch loop runs over the registry. -/
def broadcastMessage (clients : List WsClientConn) (msgTaskId : Option String) :
    List WsClientConn × List ServerAct :=
  if clients.length = 0 then (clients, [ServerAct.warnNoClients])
  else
    let regActs : List ServerAct :=
      match msgTaskId with
      | some t => clients.map (fun c => ServerAct.registerClient t c.id)
      | none => []
    let r := dispatchLoop clients
    (r.1, regActs ++ r.2)

/-! ## Client session: `IpcClient`

From `src/roocli/src/ipcClient.ts`.  The session is a transition system
driven by the WebSocket events the handlers installed by `connect` react to,
plus the firing of the reconnect timer.  The timer-fire input carries the
outcome of the `connect()` call made inside the callback: `true` when that
attempt reached the transport's open event, `false` when it threw. -/

/-- The maximum number of reconnect attempts (`maxReconnectAttempts`). -/
def maxReconnectAttempts : Nat := 10

/-- The fixed reconnect delay in milliseconds (`reconnectInterval`). -/
def reconnectInterval : Nat := 2000

/-- The mutable fields of `IpcClient` relevant to connection handling.
`connectResolved` records whether the promise returned by `connect()` has
resolved. -/
structure IpcClientState where
  isConnected : Bool
  reconnectAttempts : Nat
  isReconnecting : Bool
  timerPending : Bool
  clientId : Option String
  connectResolved : Bool
deriving DecidableEq

/-- The state of a freshly constructed `IpcClient` at the moment `connect()`
installs its handlers. -/
def initClientState : IpcClientState :=
  ⟨false, 0, false, false, none, false⟩

/-- Inputs to the session: transport events and the reconnect timer. -/
inductive ClientEvent
  | wsOpen
  | wsMessage (mtype : String) (cid : Option String)
  | wsClose (code : Nat)
  | timerFire (attemptOpened : Bool)
deriving DecidableEq

/-- Observable outputs of the session (its emitted events and the timer it
arms). `errorAttempt n` is the error emitted when reconnect attempt `n`
fails; `scheduled d` is the arming of the reconnect timer with delay `d`. -/
inductive ClientOut
  | connectedEvt
  | disconnectedEvt (code : Nat)
  | reconnectingEvt
  | messageEvt
  | errorAttempt (n : Nat)
  | scheduled (delayMs : Nat)
deriving DecidableEq

/-- Model of `IpcClient.scheduleReconnect` (ipcClient.ts lines 135 to 157):
a no-op while a reconnect is in flight or once the attempt counter has
reached the maximum; otherwise it increments the counter and arms the timer
with the fixed delay. -/
def scheduleReconnect (st : IpcClientState) : IpcClientState × List ClientOut :=
  if st.isReconnecting || decide (st.reconnectAttempts ≥ maxReconnectAttempts) then
    (st, [])
  else
    ({ st with
        isReconnecting := true
        reconnectAttempts := st.reconnectAttempts + 1
        timerPending := true },
      [ClientOut.scheduled reconnectInterval])

/-- Model of the `open` handler installed by `connect` (ipcClient.ts lines
81 to 86): mark connected, reset the attempt counter, emit `connected`, and
resolve the `connect()` promise. -/
def handleOpen (st : IpcClientState) : IpcClientState × List ClientOut :=
  ({ st with isConnected := true, reconnectAttempts := 0, connectResolved := true },
    [ClientOut.connectedEvt])

/-- One step of the session.  The close handler (lines 106 to 117) emits
`disconnected` and schedules a reconnect unless the close was the clean
code 1000.  The message handler (lines 88 to 104) stores the client id from
a `clientId` message and re-emits every message.  A timer fire (lines 147
to 156) emits `reconnecting`, runs `connect()` whose outcome the input
carries, and clears `isReconnecting`. -/
def stepEvent (st : IpcClientState) : ClientEvent → IpcClientState × List ClientOut
  | .wsOpen => handleOpen st
  | .wsMessage mtype cid =>
    let st1 := if mtype = "clientId" && cid.isSome then { st with clientId := cid } else st
    (st1, [ClientOut.messageEvt])
  | .wsClose code =>
    let st1 := { st with isConnected := false }
    if code ≠ 1000 then
      let r := scheduleReconnect st1
      (r.1, ClientOut.disconnectedEvt code :: r.2)
    else
      (st1, [ClientOut.disconnectedEvt code])
  | .timerFire attemptOpened =>
    if st.timerPending then
      if attemptOpened then
        let r := handleOpen { st with timerPending := false }
        ({ r.1 with isReconnecting := false }, ClientOut.reconnectingEvt :: r.2)
      else
        ({ st with timerPending := false, isReconnecting := false },
          [ClientOut.reconnectingEvt, ClientOut.errorAttempt st.reconnectAttempts])
    else (st, [])

/-- Runs the session over a list of inputs, concatenating the outputs. -/
def runEvents (st : IpcClientState) : List ClientEvent → IpcClientState × List ClientOut
  | [] => (st, [])
  | e :: es =>
    let r := stepEvent st e
    let r2 := runEvents r.1 es
    (r2.1, r.2 ++ r2.2)

/-- Outcome of a `connect()` call (ipcClient.ts lines 62 to 130): when the
port file cannot be read the call throws before any transport exists;
otherwise the handlers run against the event stream of the new socket. -/
inductive ConnectOutcome
  | portFailure
  | session (st : IpcClientState) (outs : List ClientOut)
deriving DecidableEq

/-- Model of `IpcClient.connect` on a fresh client, given the discovered
port (if any) and the subsequent transport events. -/
def connectRun (port : Option Nat) (events : List ClientEvent) : ConnectOutcome :=
  match port with
  | none => ConnectOutcome.portFailure
  | some _ =>
    let r := runEvents initClientState events
    ConnectOutcome.session r.1 r.2

/-- True when the event list contains no timer fire (a pure initial-connect
trace). -/
def timerFree (es : List ClientEvent) : Bool :=
  es.all fun e =>
    match e with
    | .timerFire _ => false
    | _ => true

/-- True when the event list contains no successful connect: no transport
open and no reconnect attempt that opened. -/
def noSuccessfulConnect (es : List ClientEvent) : Bool :=
  es.all fun e =>
    match e with
    | .wsOpen => false
    | .timerFire b => !b
    | _ => true

/-- Number of reconnect timer armings in an output list. -/
def countScheduled (outs : List ClientOut) : Nat :=
  outs.countP fun o =>
    match o with
    | .scheduled _ => true
    | _ => false

/-- A run of ten unexpected closes each followed by a failed reconnect
attempt, exhausting the attempt budget. -/
def exhaustionTrace : List ClientEvent :=
  List.flatten (List.replicate 10 [ClientEvent.wsClose 1006, ClientEvent.timerFire false])

/-! ## Streaming reassembler: `Repl.handleStreamedContent`

From `src/roocli/src/repl.ts`. -/

/-- The client-local stream state of a `Repl` instance.  `hasShownLabel`
models the source's flag recording whether the leading Roo label was
already written for the current stream (the field whose name starts with
`hasDisplayed` in repl.ts line 19). -/
structure StreamState where
  currentStreamedMessage : JsStr
  hasShownLabel : Bool
  lastMessageId : Option Nat
deriving DecidableEq

/-- The stream state of a freshly constructed `Repl`. -/
def initStreamState : StreamState := ⟨[], false, none⟩

/-- Model of `Repl.isDuplicateMessage` (repl.ts lines 274 to 284): an empty
content is never a duplicate and leaves the last id untouched; otherwise
the content's id is compared against, and then stored as, the last id. -/
def isDuplicateMessage (st : StreamState) (content : JsStr) : Bool × StreamState :=
  if content = [] then (false, st)
  else
    let messageId := generateMessageId content
    (decide (st.lastMessageId = some messageId),
      { st with lastMessageId := some messageId })

/-- One unit of terminal output from the reassembler: the one-time leading
label, the line break written before divergent content, or a write of new
content. -/
inductive OutItem
  | label
  | lineBreak
  | delta (s : JsStr)
deriving DecidableEq

/-- Model of `Repl.handleStreamedContent` (repl.ts lines 475 to 516).
Duplicates are discarded first; then the label is written once; then the
new content is diffed against the accumulated text: a superset prints only
the suffix, a subset is ignored, and divergent content starts a new line
and is printed in full.  The accumulated text is only updated when a
non-empty write happens. -/
def handleStreamedContent (st : StreamState) (content : JsStr) :
    StreamState × List OutItem :=
  let p := isDuplicateMessage st content
  if p.1 then (p.2, [])
  else
    let stA := p.2
    let outLabel : List OutItem := if stA.hasShownLabel then [] else [OutItem.label]
    let stB := if stA.hasShownLabel then stA else { stA with hasShownLabel := true }
    if jsStartsWith content stB.currentStreamedMessage then
      let newContent := content.drop stB.currentStreamedMessage.length
      if newContent.length > 0 then
        ({ stB with currentStreamedMessage := content }, outLabel ++ [OutItem.delta newContent])
      else (stB, outLabel)
    else if jsStartsWith stB.currentStreamedMessage content then
      (stB, outLabel)
    else
      let r2 : StreamState × List OutItem :=
        if stB.currentStreamedMessage.length > 0 then
          if stB.hasShownLabel then (stB, [OutItem.lineBreak])
          else ({ stB with hasShownLabel := true }, [OutItem.lineBreak, OutItem.label])
        else (stB, [])
      if content.length > 0 then
        ({ r2.1 with currentStreamedMessage := content },
          outLabel ++ r2.2 ++ [OutItem.delta content])
      else (r2.1, outLabel ++ r2.2)

/-- Feeds a sequence of streamable updates to the reassembler in order. -/
def runStream (st : StreamState) : List JsStr → StreamState × List OutItem
  | [] => (st, [])
  | c :: cs =>
    let r := handleStreamedContent st c
    let r2 := runStream r.1 cs
    (r2.1, r.2 ++ r2.2)

/-- Concatenation of the content writes in an output list, excluding the
label and line breaks. -/
def deltasOf : List OutItem → JsStr
  | [] => []
  | OutItem.delta s :: rest => s ++ deltasOf rest
  | OutItem.label :: rest => deltasOf rest
  | OutItem.lineBreak :: rest => deltasOf rest

/-- A five-unit extension whose rolling-hash contribution cancels exactly:
appending it to a content whose hash residue is 97 yields residue 97
again, so `generateMessageId` cannot tell the extended content apart. -/
def collideTail : JsStr := [1643, 19, 29, 27, 8]

/-! ## Interactive prompt broker: ask handling in `Repl` -/

/-- The ask-deduplication state of a `Repl` instance
(`lastAskMessageId`, repl.ts line 21). -/
structure AskState where
  lastAskMessageId : Option Nat
deriving DecidableEq

/-- The fields of an ask message that `isDuplicateAskMessage` reads: the
ask subtype (`askMessage.ask`) and the question text. -/
structure AskMessage where
  askKind : JsStr
  text : JsStr
deriving DecidableEq

/-- The code unit of the colon used to join subtype and text. -/
def COLON : Nat := 58

/-- The identifying hash of an ask message, per `isDuplicateAskMessage`
(repl.ts lines 554 to 569): `generateMessageId` of the subtype and the
text joined by a colon. -/
def askMessageId (m : AskMessage) : Nat :=
  generateMessageId (m.askKind ++ [COLON] ++ m.text)

/-- Model of `Repl.isDuplicateAskMessage`: compares the ask's id against
the stored last ask id, then stores it. -/
def isDuplicateAskMessage (st : AskState) (m : AskMessage) : Bool × AskState :=
  (decide (st.lastAskMessageId = some (askMessageId m)),
    { lastAskMessageId := some (askMessageId m) })

/-- JavaScript whitespace code units relevant to `trim` here. -/
def isJsSpace (c : Nat) : Bool :=
  c = 9 || c = 10 || c = 13 || c = 32

/-- Model of JavaScript `s.trim()`. -/
def jsTrim (s : JsStr) : JsStr :=
  ((s.dropWhile isJsSpace).reverse.dropWhile isJsSpace).reverse

/-- Model of `Repl.handleInteractiveAsk` (repl.ts lines 575 to 774) at the
granularity of the ask round: a duplicate ask returns immediately without
prompting; otherwise the user is prompted and `answer` is the round's
outcome (`none` models cancellation, `some a` a collected answer).  A
cancelled or empty answer sends nothing; otherwise the answer is sent as
the response.  Nothing in the round writes `lastAskMessageId` besides the
duplicate check itself. -/
def handleInteractiveAsk (st : AskState) (m : AskMessage) (answer : Option JsStr) :
    AskState × Bool × Option JsStr :=
  let p := isDuplicateAskMessage st m
  if p.1 then (p.2, false, none)
  else
    match answer with
    | none => (p.2, true, none)
    | some a => if jsTrim a = [] then (p.2, true, none) else (p.2, true, some a)

/-- Model of the ask-state reset in `Repl.startNewTask` (repl.ts line
1007): starting a new task clears the stored last ask id. -/
def startNewTaskAskReset (_st : AskState) : AskState :=
  { lastAskMessageId := none }

/-! ## Non-interactive invocation: `Scripting`

From `src/roocli/src/scripting.ts`. -/

/-- The completion-relevant fields of a `Scripting` instance.  `timeoutSet`
records whether `timeoutId` is non-null. -/
structure ScriptState where
  isComplete : Bool
  exitCode : Nat
  timeoutSet : Bool
deriving DecidableEq

/-- The state right after `execute()` has armed its timeout. -/
def initScriptState : ScriptState := ⟨false, 0, true⟩

/-- Observable actions of the scripting run.  `printStdout` stands for the
final-response rendering writes, which carry no completion semantics. -/
inductive ScriptAct
  | printError (msg : String)
  | printStdout
  | clearTimer
  | disconnectIpc
  | resolveWith (code : Nat)
deriving DecidableEq

/-- The message printed when the timeout fires (scripting.ts line 547). -/
def timeoutMessage : String := "Timeout waiting for response."

/-- Model of the overridden `Scripting.complete` (scripting.ts lines 586
to 603): a no-op once complete; otherwise it marks completion, fixes the
exit code, clears the timeout if armed, disconnects the IPC client, and
resolves the `execute()` promise with the exit code. -/
def completeScript (st : ScriptState) (code : Nat) : ScriptState × List ScriptAct :=
  if st.isComplete then (st, [])
  else
    ({ isComplete := true, exitCode := code, timeoutSet := false },
      (if st.timeoutSet then [ScriptAct.clearTimer] else []) ++
        [ScriptAct.disconnectIpc, ScriptAct.resolveWith code])

/-- Model of the timeout callback armed by `execute()` (scripting.ts lines
545 to 550): when not yet complete, print the timeout message and complete
with exit code 1. -/
def onTimeoutFire (st : ScriptState) : ScriptState × List ScriptAct :=
  if st.isComplete then (st, [])
  else
    let r := completeScript st 1
    (r.1, ScriptAct.printError timeoutMessage :: r.2)

/-- The completion causes a non-interactive run can encounter, per
`setupEventHandlers` and `handlePartialMessage`. -/
inductive CompletionCause
  | finalResponse
  | timeoutExpiry
  | disconnect
  | errorEvt
  | askReceived
deriving DecidableEq

/-- The exit code each cause passes to `complete`. -/
def causeExitCode : CompletionCause → Nat
  | .finalResponse => 0
  | _ => 1

/-- Effect of one completion cause on the run: the final response prints
and completes with 0; the timeout runs its guarded callback; disconnect,
error and a received ask print a diagnostic and complete with 1 (their
prints happen outside the completion guard, as in the source). -/
def scriptStep (st : ScriptState) : CompletionCause → ScriptState × List ScriptAct
  | .finalResponse =>
    let r := completeScript st 0
    (r.1, ScriptAct.printStdout :: r.2)
  | .timeoutExpiry => onTimeoutFire st
  | .disconnect =>
    let r := completeScript st 1
    (r.1, ScriptAct.printError "Disconnected from VS Code extension" :: r.2)
  | .errorEvt =>
    let r := completeScript st 1
    (r.1, ScriptAct.printError "Error" :: r.2)
  | .askReceived =>
    let r := completeScript st 1
    (r.1, ScriptAct.printError "Script mode does not support interactive prompts" :: r.2)

/-- Runs a sequence of completion causes in order. -/
def runCauses (st : ScriptState) : List CompletionCause → ScriptState × List ScriptAct
  | [] => (st, [])
  | c :: cs =>
    let r := scriptStep st c
    let r2 := runCauses r.1 cs
    (r2.1, r.2 ++ r2.2)

/-- True of the action that resolves the `execute()` promise. -/
def isResolveAct : ScriptAct → Bool
  | .resolveWith _ => true
  | _ => false

/-- True of the action that disconnects the IPC client. -/
def isDisconnectAct : ScriptAct → Bool
  | .disconnectIpc => true
  | _ => false

/-! ## Theorems -/

/-- Every entry of an updated table either carries the new value or was
already in the table. -/
theorem mem_mapSet {m : List (String × List String)} {k : String}
    {v : List String} {p : String × List String}
    (hp : p ∈ mapSet m k v) : p.2 = v ∨ p ∈ m := by
  induction m with
  | nil =>
    simp only [mapSet, List.mem_singleton] at hp
    left
    rw [hp]
  | cons q rest ih =>
    obtain ⟨k2, w⟩ := q
    by_cases h : k2 = k
    · simp only [mapSet, if_pos h, List.mem_cons] at hp
      rcases hp with h1 | h1
      · left; rw [h1]
      · right; exact List.mem_cons_of_mem _ h1
    · simp only [mapSet, if_neg h, List.mem_cons] at hp
      rcases hp with h1 | h1
      · right; rw [h1]; exact List.mem_cons_self _ _
      · rcases ih h1 with h2 | h2
        · left; exact h2
        · right; exact List.mem_cons_of_mem _ h2

/-- Updating a table with a value containing the webview id preserves the
default-subscriber property. -/
theorem invariant_mapSet {m : List (String × List String)} {k : String}
    {v : List String}
    (hm : ∀ p ∈ m, p.2 ≠ [] → WEBVIEW_CLIENT_ID ∈ p.2)
    (hv : WEBVIEW_CLIENT_ID ∈ v) :
    ∀ p ∈ mapSet m k v, p.2 ≠ [] → WEBVIEW_CLIENT_ID ∈ p.2 := by
  intro p hp hne
  rcases mem_mapSet hp with h | h
  · rw [h]; exact hv
  · exact hm p h hne

/-- The router's state after `sendIpcEvent` is either unchanged or the
table updated at the task with a value containing the webview id. -/
theorem sendIpcEvent_fst_cases (st : ApiState) (t : String) :
    (sendIpcEvent st t).1 = st ∨
      ∃ v, WEBVIEW_CLIENT_ID ∈ v ∧
        (sendIpcEvent st t).1 =
          { st with taskIdToClientIdMap := mapSet st.taskIdToClientIdMap t v } := by
  by_cases h : WEBVIEW_CLIENT_ID ∈ (mapGet st.taskIdToClientIdMap t).getD []
  · left
    have hlen : 0 < ((mapGet st.taskIdToClientIdMap t).getD []).length :=
      List.length_pos.mpr (List.ne_nil_of_mem h)
    simp only [sendIpcEvent, if_pos h, if_pos hlen]
  · right
    refine ⟨(mapGet st.taskIdToClientIdMap t).getD [] ++ [WEBVIEW_CLIENT_ID],
      by simp, ?_⟩
    have hlen :
        0 < (((mapGet st.taskIdToClientIdMap t).getD []) ++ [WEBVIEW_CLIENT_ID]).length := by
      simp
    simp only [sendIpcEvent, if_neg h, if_pos hlen]

/-- Each of the three operations preserves the default-subscriber
invariant. -/
theorem applyOp_preserves_webviewInvariant (st : ApiState) (op : ApiOp)
    (h : webviewInvariant st) : webviewInvariant (applyOp st op) := by
  cases op with
  | startNewTask t c =>
    intro p hp hne
    exact invariant_mapSet h (by simp) p hp hne
  | registerClient t c =>
    intro p hp hne
    refine invariant_mapSet h ?_ p hp hne
    by_cases hw :
        WEBVIEW_CLIENT_ID ∈
          (if c ∈ (mapGet st.taskIdToClientIdMap t).getD [] then
            (mapGet st.taskIdToClientIdMap t).getD []
          else (mapGet st.taskIdToClientIdMap t).getD [] ++ [c])
    · simpa [registerClientForTask, if_pos hw] using hw
    · simp [registerClientForTask, if_neg hw]
  | emit t =>
    rcases sendIpcEvent_fst_cases st t with hcase | ⟨v, hv, hcase⟩
    · simpa [applyOp, hcase] using h
    · intro p hp hne
      rw [applyOp] at hp
      rw [hcase] at hp
      exact invariant_mapSet h hv p hp hne

/-- Every table reachable through the three operations satisfies the
default-subscriber invariant. -/
theorem reachable_webviewInvariant (st : ApiState) (h : ReachableTable st) :
    webviewInvariant st := by
  induction h with
  | init connected => intro p hp; cases hp
  | step st op _ ih => exact applyOp_preserves_webviewInvariant st op ih
  | setClients st cs _ ih => exact ih

/-- C2: after any single subscription-table operation (start-task
registration, explicit client registration, or an emit) applied to a
reachable state, every non-empty subscription set contains the default
webview subscriber. -/
theorem c2_default_subscriber_invariant (st : ApiState) (op : ApiOp)
    (h : ReachableTable st) : webviewInvariant (applyOp st op) :=
  reachable_webviewInvariant _ (ReachableTable.step st op h)

/-- Witness for C2 at a concrete reachable state and operation. -/
theorem c2_default_subscriber_invariant_witness :
    ReachableTable ⟨[], ["cli-1"]⟩ ∧
      webviewInvariant (applyOp ⟨[], ["cli-1"]⟩ (ApiOp.emit "T1")) :=
  ⟨ReachableTable.init ["cli-1"],
    c2_default_subscriber_invariant ⟨[], ["cli-1"]⟩ (ApiOp.emit "T1")
      (ReachableTable.init ["cli-1"])⟩

/-- C1: evaluating `sendIpcEvent` on a task id with no subscription entry
while a CLI client is connected.  The webview id is pushed into the client
list before the emptiness test, so the broadcast-to-all-connected fallback
branch is unreachable: only the webview receives the event, the connected
client `cli-1` receives nothing, and the created entry is the singleton
webview set rather than the connected set. -/
theorem c1_unknown_task_fallback_unreachable :
    (sendIpcEvent ⟨[], ["cli-1"]⟩ "T1").2 = [EmitTarget.sendTo WEBVIEW_CLIENT_ID] ∧
      EmitTarget.sendTo "cli-1" ∉ (sendIpcEvent ⟨[], ["cli-1"]⟩ "T1").2 ∧
      (sendIpcEvent ⟨[], ["cli-1"]⟩ "T1").1.taskIdToClientIdMap =
        [("T1", [WEBVIEW_CLIENT_ID])] := by
  decide

/-- C6 counterexample: a message from client `bad` that fails parsing is
logged and answered with an error notice, but the registry is unchanged
(the offending client is still registered) and no connection close is
issued, contrary to the claimed eviction. -/
theorem c6_counterexample_no_eviction :
    handleCliMessage [⟨"bad", 1, false⟩, ⟨"good", 1, false⟩] "bad" none true =
        ([⟨"bad", 1, false⟩, ⟨"good", 1, false⟩],
          [ServerAct.logError "bad", ServerAct.sendErrorNotice "bad"]) ∧
      (⟨"bad", 1, false⟩ : WsClientConn) ∈
        (handleCliMessage [⟨"bad", 1, false⟩, ⟨"good", 1, false⟩] "bad" none true).1 ∧
      ServerAct.closeConnection "bad" ∉
        (handleCliMessage [⟨"bad", 1, false⟩, ⟨"good", 1, false⟩] "bad" none true).2 := by
  decide

/-- C6 amended: for every inbound client message that fails envelope
parsing, the failure is logged and an error notice is sent back to the
offending client; the hosting process keeps serving (the handler returns
normally with the registry unchanged, other clients unaffected), and the
offending connection is neither closed nor evicted from the registry. -/
theorem c6_parse_failure_logged_not_evicted (clients : List WsClientConn)
    (clientId : String) (providerAlive : Bool) :
    handleCliMessage clients clientId none providerAlive =
      (clients, [ServerAct.logError clientId, ServerAct.sendErrorNotice clientId]) := rfl

/-- The dispatch loop keeps exactly the clients whose socket is open. -/
theorem dispatchLoop_fst (l : List WsClientConn) :
    (dispatchLoop l).1 = l.filter (fun c => c.readyState == WS_OPEN) := by
  induction l with
  | nil => rfl
  | cons c rest ih =>
    by_cases h : c.readyState = WS_OPEN
    · by_cases hf : c.sendFails <;>
        simp [dispatchLoop, h, hf, ih, List.filter_cons]
    · simp [dispatchLoop, h, ih, List.filter_cons]

/-- Every open client in the registry is written to by the dispatch loop. -/
theorem dispatchLoop_sends {c : WsClientConn} {l : List WsClientConn}
    (hc : c ∈ l) (h : c.readyState = WS_OPEN) :
    ServerAct.sendPayload c.id ∈ (dispatchLoop l).2 := by
  induction l with
  | nil => cases hc
  | cons d rest ih =>
    rcases List.mem_cons.mp hc with rfl | hmem
    · by_cases hf : c.sendFails <;> simp [dispatchLoop, h, hf]
    · by_cases hd : d.readyState = WS_OPEN
      · by_cases hf : d.sendFails <;> simp [dispatchLoop, hd, hf, ih hmem]
      · simp [dispatchLoop, hd, ih hmem]

/-- A write error on an open client is logged by the dispatch loop. -/
theorem dispatchLoop_logs_write_error {c : WsClientConn} {l : List WsClientConn}
    (hc : c ∈ l) (h : c.readyState = WS_OPEN) (hf : c.sendFails = true) :
    ServerAct.logError c.id ∈ (dispatchLoop l).2 := by
  induction l with
  | nil => cases hc
  | cons d rest ih =>
    rcases List.mem_cons.mp hc with rfl | hmem
    · simp [dispatchLoop, h, hf]
    · by_cases hd : d.readyState = WS_OPEN
      · by_cases hdf : d.sendFails <;> simp [dispatchLoop, hd, hdf, ih hmem]
      · simp [dispatchLoop, hd, ih hmem]

/-- C7 counterexample: a broadcast over a registry where the write to open
client `a` errors and client `b` is healthy.  The error is logged and `b`
is still dispatched to, but `a` remains in the registry afterwards,
contrary to the claimed removal of the failing client. -/
theorem c7_counterexample_failing_client_kept :
    ServerAct.logError "a" ∈
        (broadcastMessage [⟨"a", 1, true⟩, ⟨"b", 1, false⟩] none).2 ∧
      ServerAct.sendPayload "b" ∈
        (broadcastMessage [⟨"a", 1, true⟩, ⟨"b", 1, false⟩] none).2 ∧
      (broadcastMessage [⟨"a", 1, true⟩, ⟨"b", 1, false⟩] none).1 =
        [⟨"a", 1, true⟩, ⟨"b", 1, false⟩] := by
  decide

/-- C7 amended: in every broadcast dispatch, a write error on one open
subscriber is caught and logged and does not block dispatch to any other
open subscriber, but the failing client stays in the registry; only a
client whose socket is no longer open is removed (proactively, without a
write being attempted on it). -/
theorem c7_write_error_logged_dispatch_continues (clients : List WsClientConn)
    (t : Option String) (c : WsClientConn) (hc : c ∈ clients) :
    (c.readyState = WS_OPEN →
        ServerAct.sendPayload c.id ∈ (broadcastMessage clients t).2 ∧
          c ∈ (broadcastMessage clients t).1 ∧
          (c.sendFails = true →
            ServerAct.logError c.id ∈ (broadcastMessage clients t).2)) ∧
      (c.readyState ≠ WS_OPEN → c ∉ (broadcastMessage clients t).1) := by
  have hlen : ¬clients.length = 0 := by
    intro h0
    rw [List.length_eq_zero.mp h0] at hc
    cases hc
  constructor
  · intro hopen
    refine ⟨?_, ?_, ?_⟩
    · simp only [broadcastMessage, if_neg hlen, List.mem_append]
      exact Or.inr (dispatchLoop_sends hc hopen)
    · simp only [broadcastMessage, if_neg hlen, dispatchLoop_fst, List.mem_filter]
      exact ⟨hc, by simp [hopen]⟩
    · intro hf
      simp only [broadcastMessage, if_neg hlen, List.mem_append]
      exact Or.inr (dispatchLoop_logs_write_error hc hopen hf)
  · intro hopen
    simp only [broadcastMessage, if_neg hlen, dispatchLoop_fst, List.mem_filter]
    intro hmem
    exact hopen (by simpa using hmem.2)

/-- Witness for C7 at a concrete registry. -/
theorem c7_write_error_logged_dispatch_continues_witness :
    (⟨"a", 1, true⟩ : WsClientConn) ∈
        ([⟨"a", 1, true⟩, ⟨"b", 1, false⟩] : List WsClientConn) ∧
      ((⟨"a", 1, true⟩ : WsClientConn).readyState = WS_OPEN →
          ServerAct.sendPayload "a" ∈
            (broadcastMessage [⟨"a", 1, true⟩, ⟨"b", 1, false⟩] none).2 ∧
            (⟨"a", 1, true⟩ : WsClientConn) ∈
              (broadcastMessage [⟨"a", 1, true⟩, ⟨"b", 1, false⟩] none).1 ∧
            ((⟨"a", 1, true⟩ : WsClientConn).sendFails = true →
              ServerAct.logError "a" ∈
                (broadcastMessage [⟨"a", 1, true⟩, ⟨"b", 1, false⟩] none).2)) :=
  ⟨by decide,
    (c7_write_error_logged_dispatch_continues
      [⟨"a", 1, true⟩, ⟨"b", 1, false⟩] none ⟨"a", 1, true⟩ (by decide)).1⟩

/-- Scheduling a reconnect never changes the resolution flag. -/
theorem scheduleReconnect_resolved (st : IpcClientState) :
    (scheduleReconnect st).1.connectResolved = st.connectResolved := by
  unfold scheduleReconnect
  split <;> rfl

/-- C3 counterexample: a connect run in which the transport opens and no
message has yet been received.  The promise is already resolved while the
session's client id is still null, contrary to the claim that resolution
waits for the acknowledge envelope. -/
theorem c3_counterexample_resolved_before_ack :
    (runEvents initClientState [ClientEvent.wsOpen]).1.connectResolved = true ∧
      (runEvents initClientState [ClientEvent.wsOpen]).1.clientId = none ∧
      connectRun (some 8080) [ClientEvent.wsOpen] =
        ConnectOutcome.session ⟨true, 0, false, false, none, true⟩
          [ClientOut.connectedEvt] := by
  decide

/-- In a timer-free trace the promise is resolved exactly when the open
event has fired. -/
theorem runEvents_resolved_iff (es : List ClientEvent) (st : IpcClientState)
    (ht : timerFree es = true) :
    ((runEvents st es).1.connectResolved = true ↔
      st.connectResolved = true ∨ ClientEvent.wsOpen ∈ es) := by
  induction es generalizing st with
  | nil => simp [runEvents]
  | cons e rest ih =>
    have ht2 : timerFree rest = true := by
      simp only [timerFree, List.all_cons, Bool.and_eq_true] at ht
      exact ht.2
    cases e with
    | wsOpen =>
      simp only [runEvents, stepEvent, handleOpen]
      rw [ih _ ht2]
      simp
    | wsMessage mtype cid =>
      simp only [runEvents, stepEvent]
      have hres :
          (if mtype = "clientId" && cid.isSome then { st with clientId := cid }
            else st).connectResolved = st.connectResolved := by
        split <;> rfl
      rw [ih _ ht2, hres]
      simp
    | wsClose code =>
      simp only [runEvents, stepEvent]
      by_cases hcode : code ≠ 1000
      · simp only [if_pos hcode]
        rw [ih _ ht2, scheduleReconnect_resolved]
        simp
      · simp only [if_neg hcode]
        rw [ih _ ht2]
        simp
    | timerFire b =>
      simp only [timerFree, List.all_cons] at ht
      cases ht

/-- C3 amended: `connect()` rejects when the discovery port is absent
(before any transport exists); otherwise its promise resolves exactly when
the transport's open event fires, independently of any acknowledge
envelope, and the session's client id is set only when a `clientId`
message is processed. -/
theorem c3_resolution_on_open (es : List ClientEvent) (p : Nat)
    (ht : timerFree es = true) :
    connectRun none es = ConnectOutcome.portFailure ∧
      connectRun (some p) es =
        ConnectOutcome.session (runEvents initClientState es).1
          (runEvents initClientState es).2 ∧
      ((runEvents initClientState es).1.connectResolved = true ↔
        ClientEvent.wsOpen ∈ es) ∧
      (∀ st : IpcClientState, ∀ cid : String,
        (stepEvent st (ClientEvent.wsMessage "clientId" (some cid))).1.clientId =
          some cid) := by
  refine ⟨rfl, rfl, ?_, ?_⟩
  · rw [runEvents_resolved_iff es initClientState ht]
    simp [initClientState]
  · intro st cid
    simp [stepEvent]

/-- Witness for C3 amended at a concrete trace. -/
theorem c3_resolution_on_open_witness :
    timerFree [ClientEvent.wsOpen] = true ∧
      ((runEvents initClientState [ClientEvent.wsOpen]).1.connectResolved = true ↔
        ClientEvent.wsOpen ∈ [ClientEvent.wsOpen]) :=
  ⟨by decide, (c3_resolution_on_open [ClientEvent.wsOpen] 8080 (by decide)).2.2.1⟩

/-- One step never pushes the attempt counter past the maximum. -/
theorem stepEvent_attempts_le (st : IpcClientState) (e : ClientEvent)
    (h : st.reconnectAttempts ≤ maxReconnectAttempts) :
    (stepEvent st e).1.reconnectAttempts ≤ maxReconnectAttempts := by
  cases e with
  | wsOpen => simp [stepEvent, handleOpen]
  | wsMessage mtype cid =>
    simp only [stepEvent]
    split <;> exact h
  | wsClose code =>
    simp only [stepEvent]
    split
    · unfold scheduleReconnect
      split
      · exact h
      · rename_i hguard
        simp only [Bool.or_eq_true, decide_eq_true_eq, not_or, not_le] at hguard
        simp only
        omega
    · exact h
  | timerFire b =>
    simp only [stepEvent]
    split
    · split
      · simp [handleOpen]
      · exact h
    · exact h

/-- A run never pushes the attempt counter past the maximum. -/
theorem runEvents_attempts_le (es : List ClientEvent) (st : IpcClientState)
    (h : st.reconnectAttempts ≤ maxReconnectAttempts) :
    (runEvents st es).1.reconnectAttempts ≤ maxReconnectAttempts := by
  induction es generalizing st with
  | nil => exact h
  | cons e rest ih => exact ih _ (stepEvent_attempts_le st e h)

/-- Without a successful connect, one step raises the attempt counter by
exactly the number of reconnects it schedules. -/
theorem stepEvent_attempts_sched (st : IpcClientState) (e : ClientEvent)
    (he : noSuccessfulConnect [e] = true) :
    (stepEvent st e).1.reconnectAttempts =
      st.reconnectAttempts + countScheduled (stepEvent st e).2 := by
  cases e with
  | wsOpen => simp [noSuccessfulConnect] at he
  | wsMessage mtype cid =>
    simp only [stepEvent, countScheduled]
    split <;> simp
  | wsClose code =>
    simp only [stepEvent]
    split
    · unfold scheduleReconnect
      split
      · simp [countScheduled]
      · simp [countScheduled]
    · simp [countScheduled]
  | timerFire b =>
    simp only [noSuccessfulConnect, List.all_cons, Bool.and_eq_true] at he
    have hb : b = false := by
      cases b
      · rfl
      · cases he.1
    subst hb
    simp only [stepEvent]
    split
    · simp [countScheduled]
    · simp [countScheduled]

/-- Without a successful connect, a run raises the attempt counter by
exactly the number of reconnects it schedules. -/
theorem runEvents_attempts_sched (es : List ClientEvent) (st : IpcClientState)
    (h : noSuccessfulConnect es = true) :
    (runEvents st es).1.reconnectAttempts =
      st.reconnectAttempts + countScheduled (runEvents st es).2 := by
  induction es generalizing st with
  | nil => simp [runEvents, countScheduled]
  | cons e rest ih =>
    simp only [noSuccessfulConnect, List.all_cons, Bool.and_eq_true] at h
    have h1 : noSuccessfulConnect [e] = true := by
      simp [noSuccessfulConnect, h.1]
    have h2 : noSuccessfulConnect rest = true := h.2
    simp only [runEvents, countScheduled, List.countP_append]
    rw [← countScheduled, ← countScheduled, ih _ h2, stepEvent_attempts_sched st e h1]
    omega

/-- Every reconnect a step schedules uses the fixed delay. -/
theorem stepEvent_scheduled_delay (st : IpcClientState) (e : ClientEvent)
    (d : Nat) (hd : ClientOut.scheduled d ∈ (stepEvent st e).2) :
    d = reconnectInterval := by
  cases e with
  | wsOpen => simp [stepEvent, handleOpen] at hd
  | wsMessage mtype cid =>
    simp only [stepEvent] at hd
    simp at hd
  | wsClose code =>
    simp only [stepEvent] at hd
    revert hd
    split
    · unfold scheduleReconnect
      split
      · simp
      · simp only [List.mem_cons, List.mem_singleton]
        rintro (h | h)
        · cases h
        · simpa using h
    · simp
  | timerFire b =>
    revert hd
    simp only [stepEvent]
    split
    · split
      · simp [handleOpen]
      · simp
    · simp

/-- Every reconnect a run schedules uses the fixed delay. -/
theorem runEvents_scheduled_delay (es : List ClientEvent) (st : IpcClientState)
    (d : Nat) (hd : ClientOut.scheduled d ∈ (runEvents st es).2) :
    d = reconnectInterval := by
  induction es generalizing st with
  | nil => cases hd
  | cons e rest ih =>
    simp only [runEvents, List.mem_append] at hd
    rcases hd with h | h
    · exact stepEvent_scheduled_delay st e d h
    · exact ih _ h

/-- C5 amended: along any run with no successful connect, at most the
configured maximum number of reconnect attempts is scheduled, each with
the fixed delay, and a successful open resets the attempt counter to zero.
On exhausting the bound no fatal failure is surfaced; the client merely
stops scheduling (see the counterexample). -/
theorem c5_reconnect_bound (es : List ClientEvent)
    (h : noSuccessfulConnect es = true) :
    countScheduled (runEvents initClientState es).2 ≤ maxReconnectAttempts ∧
      (∀ d, ClientOut.scheduled d ∈ (runEvents initClientState es).2 →
        d = reconnectInterval) ∧
      (∀ st : IpcClientState,
        (stepEvent st ClientEvent.wsOpen).1.reconnectAttempts = 0) := by
  refine ⟨?_, ?_, ?_⟩
  · have h1 := runEvents_attempts_sched es initClientState h
    have h2 := runEvents_attempts_le es initClientState (by simp [initClientState])
    have h0 : initClientState.reconnectAttempts = 0 := rfl
    rw [h0] at h1
    omega
  · intro d hd
    exact runEvents_scheduled_delay es initClientState d hd
  · intro st
    rfl

/-- Witness for C5 at a concrete trace. -/
theorem c5_reconnect_bound_witness :
    noSuccessfulConnect [ClientEvent.wsClose 1006] = true ∧
      countScheduled (runEvents initClientState [ClientEvent.wsClose 1006]).2 ≤
        maxReconnectAttempts :=
  ⟨by decide, (c5_reconnect_bound [ClientEvent.wsClose 1006] (by decide)).1⟩

/-- C5 counterexample: after ten unexpected closes whose reconnect attempts
all failed, the attempt budget is exhausted; the next unexpected close
emits only the routine disconnected event, arms no timer, and surfaces no
failure of any kind, contrary to the claimed fatal session failure. -/
theorem c5_counterexample_silent_exhaustion :
    (runEvents initClientState exhaustionTrace).1.reconnectAttempts =
        maxReconnectAttempts ∧
      countScheduled (runEvents initClientState exhaustionTrace).2 =
        maxReconnectAttempts ∧
      (stepEvent (runEvents initClientState exhaustionTrace).1
          (ClientEvent.wsClose 1006)).2 = [ClientOut.disconnectedEvt 1006] ∧
      (stepEvent (runEvents initClientState exhaustionTrace).1
          (ClientEvent.wsClose 1006)).1.timerPending = false := by
  decide

/-- Every string starts with the empty string. -/
theorem jsStartsWith_nil (s : JsStr) : jsStartsWith s [] = true := by
  cases s <;> rfl

/-- A string is its own prefix followed by the rest. -/
theorem jsStartsWith_append_drop {c a : JsStr} (h : jsStartsWith c a = true) :
    a ++ c.drop a.length = c := by
  induction a generalizing c with
  | nil => simp
  | cons x xs ih =>
    cases c with
    | nil => cases h
    | cons y ys =>
      simp only [jsStartsWith, Bool.and_eq_true, beq_iff_eq] at h
      obtain ⟨hyx, h2⟩ := h
      subst hyx
      simp only [List.length_cons, List.cons_append, List.drop_succ_cons]
      rw [ih h2]

/-- The rest after a proper prefix is non-empty. -/
theorem drop_ne_nil_of_proper {c a : JsStr} (h : jsStartsWith c a = true)
    (hne : a ≠ c) : c.drop a.length ≠ [] := by
  intro h0
  apply hne
  have h1 := jsStartsWith_append_drop h
  rw [h0, List.append_nil] at h1
  exact h1

/-- Concatenating output lists concatenates their content writes. -/
theorem deltasOf_append (xs ys : List OutItem) :
    deltasOf (xs ++ ys) = deltasOf xs ++ deltasOf ys := by
  induction xs with
  | nil => rfl
  | cons x rest ih =>
    cases x <;> simp [deltasOf, ih]

/-- One reassembler step on a content extending the accumulated text: the
accumulated text becomes the new content, the printed writes are exactly
the suffix, and the stored last id is the new content's id (or still
untouched when the content is empty). -/
theorem handleStreamedContent_growth_step (st : StreamState) (a c : JsStr)
    (hacc : st.currentStreamedMessage = a)
    (hlast : st.lastMessageId = none ∨
      st.lastMessageId = some (generateMessageId a))
    (hpre : jsStartsWith c a = true)
    (hno : st.lastMessageId = some (generateMessageId a) → a ≠ c →
      generateMessageId c ≠ generateMessageId a) :
    (handleStreamedContent st c).1.currentStreamedMessage = c ∧
      deltasOf (handleStreamedContent st c).2 = c.drop a.length ∧
      ((handleStreamedContent st c).1.lastMessageId = none ∨
        (handleStreamedContent st c).1.lastMessageId =
          some (generateMessageId c)) := by
  by_cases hc : c = []
  · subst hc
    have ha : a = [] := by
      cases a with
      | nil => rfl
      | cons x xs => cases hpre
    subst ha
    by_cases hl : st.hasShownLabel <;>
      refine ⟨?_, ?_, ?_⟩ <;>
        simp [handleStreamedContent, isDuplicateMessage, hacc, hl, deltasOf,
          jsStartsWith_nil] <;>
      exact hlast
  · by_cases hdup : st.lastMessageId = some (generateMessageId c)
    · have hlast2 : st.lastMessageId = some (generateMessageId a) := by
        rcases hlast with h | h
        · rw [h] at hdup
          cases hdup
        · exact h
      have hac : a = c := by
        by_contra hne
        apply hno hlast2 hne
        have h1 := hlast2
        rw [hdup] at h1
        exact (Option.some.injEq _ _ ▸ h1).symm ▸ rfl
      subst hac
      refine ⟨?_, ?_, ?_⟩ <;>
        simp [handleStreamedContent, isDuplicateMessage, hc, hdup, hacc, deltasOf]
    · by_cases hac : a = c
      · subst hac
        have hd0 : a.drop a.length = [] := by simp
        by_cases hl : st.hasShownLabel <;>
          refine ⟨?_, ?_, ?_⟩ <;>
            simp [handleStreamedContent, isDuplicateMessage, hc, hdup, hacc, hl,
              hpre, hd0, deltasOf]
      · have hdpos : (c.drop a.length).length > 0 :=
          List.length_pos.mpr (drop_ne_nil_of_proper hpre hac)
        have hlen : a.length < c.length := by
          rw [List.length_drop] at hdpos
          omega
        by_cases hl : st.hasShownLabel <;>
          refine ⟨?_, ?_, ?_⟩ <;>
            simp [handleStreamedContent, isDuplicateMessage, hc, hdup, hacc, hl,
              hpre, hdpos, hlen, deltasOf]

/-- C4 amended: for streamable updates `c1 ⊑ c2 ⊑ c3` fed in order from a
fresh stream state, provided no two distinct consecutive contents collide
under the 32-bit duplicate-detection hash, the concatenation of the printed
deltas equals `c3` and the accumulated text afterwards equals `c3`. -/
theorem c4_suffix_law_no_collision (c1 c2 c3 : JsStr)
    (h12 : jsStartsWith c2 c1 = true) (h23 : jsStartsWith c3 c2 = true)
    (hno12 : c1 ≠ c2 → generateMessageId c2 ≠ generateMessageId c1)
    (hno23 : c2 ≠ c3 → generateMessageId c3 ≠ generateMessageId c2) :
    deltasOf (runStream initStreamState [c1, c2, c3]).2 = c3 ∧
      (runStream initStreamState [c1, c2, c3]).1.currentStreamedMessage = c3 := by
  obtain ⟨ha1, hd1, hl1⟩ :=
    handleStreamedContent_growth_step initStreamState [] c1 rfl (Or.inl rfl)
      (jsStartsWith_nil c1)
      (fun hg => absurd hg (by simp [initStreamState]))
  obtain ⟨ha2, hd2, hl2⟩ :=
    handleStreamedContent_growth_step (handleStreamedContent initStreamState c1).1
      c1 c2 ha1 hl1 h12 (fun _ => hno12)
  obtain ⟨ha3, hd3, hl3⟩ :=
    handleStreamedContent_growth_step
      (handleStreamedContent (handleStreamedContent initStreamState c1).1 c2).1
      c2 c3 ha2 hl2 h23 (fun _ => hno23)
  have hrun :
      runStream initStreamState [c1, c2, c3] =
        ((handleStreamedContent
            (handleStreamedContent
              (handleStreamedContent initStreamState c1).1 c2).1 c3).1,
          (handleStreamedContent initStreamState c1).2 ++
            ((handleStreamedContent
                (handleStreamedContent initStreamState c1).1 c2).2 ++
              ((handleStreamedContent
                  (handleStreamedContent
                    (handleStreamedContent initStreamState c1).1 c2).1 c3).2 ++
                []))) := rfl
  rw [hrun]
  constructor
  · simp only [deltasOf_append, List.append_nil]
    rw [hd1, hd2, hd3]
    simp only [List.length_nil, List.drop_zero]
    rw [← List.append_assoc, jsStartsWith_append_drop h12,
      jsStartsWith_append_drop h23]
  · exact ha3

/-- Witness for C4 amended at a concrete collision-free chain. -/
theorem c4_suffix_law_no_collision_witness :
    jsStartsWith [104, 105] [104] = true ∧
      jsStartsWith [104, 105, 106] [104, 105] = true ∧
      deltasOf
          (runStream initStreamState [[104], [104, 105], [104, 105, 106]]).2 =
        [104, 105, 106] :=
  ⟨by decide, by decide,
    (c4_suffix_law_no_collision [104] [104, 105] [104, 105, 106]
      (by decide) (by decide) (by decide) (by decide)).1⟩

/-- C4 counterexample: a proper prefix chain on which the 32-bit rolling
hash of all three contents is the same residue 97.  The second and third
updates are discarded as exact repeats by the duplicate check, so the
printed deltas concatenate to the first content only and the accumulated
text never reaches the final content. -/
theorem c4_counterexample_hash_collision :
    jsStartsWith ([97] ++ collideTail) [97] = true ∧
      jsStartsWith ([97] ++ collideTail ++ collideTail) ([97] ++ collideTail) = true ∧
      generateMessageId [97] = 97 ∧
      generateMessageId ([97] ++ collideTail) = 97 ∧
      generateMessageId ([97] ++ collideTail ++ collideTail) = 97 ∧
      deltasOf
          (runStream initStreamState
            [[97], [97] ++ collideTail, [97] ++ collideTail ++ collideTail]).2 =
        [97] ∧
      (runStream initStreamState
          [[97], [97] ++ collideTail, [97] ++ collideTail ++ collideTail]).1.currentStreamedMessage =
        [97] ∧
      [97] ≠ [97] ++ collideTail ++ collideTail := by
  decide

/-- An ask round always leaves the ask id of its message stored,
whatever the round's outcome. -/
theorem handleInteractiveAsk_fst (st : AskState) (m : AskMessage)
    (a : Option JsStr) :
    (handleInteractiveAsk st m a).1 = ⟨some (askMessageId m)⟩ := by
  cases a with
  | none =>
    simp only [handleInteractiveAsk, isDuplicateAskMessage]
    split <;> rfl
  | some x =>
    simp only [handleInteractiveAsk, isDuplicateAskMessage]
    split
    · rfl
    · split <;> rfl

/-- C8 counterexample: a followup ask answered with a non-empty response,
then redelivered identically.  The first round prompts and sends the
answer; the identical second ask is suppressed as a duplicate instead of
triggering a new prompt, because the identifying hash was not cleared when
the answer was sent. -/
theorem c8_counterexample_repeat_ask_suppressed :
    (handleInteractiveAsk ⟨none⟩
        ⟨[102, 111, 108, 108, 111, 119, 117, 112], [79, 107, 63]⟩
        (some [121, 101, 115])).2.1 = true ∧
      (handleInteractiveAsk ⟨none⟩
          ⟨[102, 111, 108, 108, 111, 119, 117, 112], [79, 107, 63]⟩
          (some [121, 101, 115])).2.2 = some [121, 101, 115] ∧
      (handleInteractiveAsk
          (handleInteractiveAsk ⟨none⟩
            ⟨[102, 111, 108, 108, 111, 119, 117, 112], [79, 107, 63]⟩
            (some [121, 101, 115])).1
          ⟨[102, 111, 108, 108, 111, 119, 117, 112], [79, 107, 63]⟩
          (some [121, 101, 115])).2.1 = false := by
  decide

/-- C8 amended: the pending-ask identifying hash is not cleared when an
answer is sent or the round is cancelled; it persists across the round, so
a subsequent ask identical to the just-answered one is suppressed as a
duplicate.  The hash is reset only when a new task is started, after which
the same ask prompts again. -/
theorem c8_ask_hash_persists (st : AskState) (m : AskMessage)
    (ans1 ans2 ans3 : Option JsStr) :
    (handleInteractiveAsk (handleInteractiveAsk st m ans1).1 m ans2).2.1 = false ∧
      (handleInteractiveAsk (startNewTaskAskReset st) m ans3).2.1 = true := by
  constructor
  · rw [handleInteractiveAsk_fst st m ans1]
    cases ans2 with
    | none => simp [handleInteractiveAsk, isDuplicateAskMessage]
    | some x => simp [handleInteractiveAsk, isDuplicateAskMessage]
  · cases ans3 with
    | none => simp [handleInteractiveAsk, isDuplicateAskMessage, startNewTaskAskReset]
    | some x =>
      simp only [handleInteractiveAsk, isDuplicateAskMessage, startNewTaskAskReset]
      split
      · rename_i hfalse
        simp at hfalse
      · split <;> rfl

/-- C9 counterexample: firing the timeout of a fresh non-interactive run
prints exactly the fixed message, which contains no digit at all and
therefore cannot name the configured timeout value (its decimal
representation), while resolving with exit code 1 and disconnecting. -/
theorem c9_counterexample_message_lacks_value :
    onTimeoutFire initScriptState =
        (⟨true, 1, false⟩,
          [ScriptAct.printError timeoutMessage, ScriptAct.clearTimer,
            ScriptAct.disconnectIpc, ScriptAct.resolveWith 1]) ∧
      timeoutMessage.data.all (fun ch => !ch.isDigit) = true := by
  decide

/-- C9 amended: when the timeout fires on a not-yet-complete run, the
invocation resolves with exit code 1, prints the fixed human-readable
message `timeoutMessage` (which does not name the timeout value), and
disconnects the session. -/
theorem c9_timeout_exit1_fixed_message (st : ScriptState)
    (h : st.isComplete = false) :
    onTimeoutFire st =
      (⟨true, 1, false⟩,
        ScriptAct.printError timeoutMessage ::
          ((if st.timeoutSet then [ScriptAct.clearTimer] else []) ++
            [ScriptAct.disconnectIpc, ScriptAct.resolveWith 1])) := by
  simp [onTimeoutFire, completeScript, h]

/-- Witness for C9 amended on a fresh run. -/
theorem c9_timeout_exit1_fixed_message_witness :
    initScriptState.isComplete = false ∧
      onTimeoutFire initScriptState =
        (⟨true, 1, false⟩,
          ScriptAct.printError timeoutMessage ::
            ((if initScriptState.timeoutSet then [ScriptAct.clearTimer] else []) ++
              [ScriptAct.disconnectIpc, ScriptAct.resolveWith 1])) :=
  ⟨rfl, c9_timeout_exit1_fixed_message initScriptState rfl⟩

/-- Once complete, every further completion cause leaves the state
untouched and neither resolves nor disconnects. -/
theorem scriptStep_completed (st : ScriptState) (c : CompletionCause)
    (h : st.isComplete = true) :
    (scriptStep st c).1 = st ∧
      (scriptStep st c).2.countP isResolveAct = 0 ∧
      (scriptStep st c).2.countP isDisconnectAct = 0 := by
  cases c <;>
    simp [scriptStep, completeScript, onTimeoutFire, h, isResolveAct,
      isDisconnectAct]

/-- Once complete, a whole run of further causes is inert. -/
theorem runCauses_completed (st : ScriptState) (cs : List CompletionCause)
    (h : st.isComplete = true) :
    (runCauses st cs).1 = st ∧
      (runCauses st cs).2.countP isResolveAct = 0 ∧
      (runCauses st cs).2.countP isDisconnectAct = 0 := by
  induction cs with
  | nil => exact ⟨rfl, rfl, rfl⟩
  | cons c rest ih =>
    obtain ⟨h1, h2, h3⟩ := scriptStep_completed st c h
    simp only [runCauses, List.countP_append]
    rw [h1]
    obtain ⟨g1, g2, g3⟩ := ih
    exact ⟨g1, by rw [h2, g2], by rw [h3, g3]⟩

/-- The first completion cause on a fresh run fixes the state, resolves
once and disconnects once. -/
theorem scriptStep_fresh (st : ScriptState) (c : CompletionCause)
    (h : st.isComplete = false) :
    (scriptStep st c).1 = ⟨true, causeExitCode c, false⟩ ∧
      (scriptStep st c).2.countP isResolveAct = 1 ∧
      (scriptStep st c).2.countP isDisconnectAct = 1 ∧
      ScriptAct.resolveWith (causeExitCode c) ∈ (scriptStep st c).2 := by
  cases c <;> by_cases ht : st.timeoutSet <;>
    simp [scriptStep, completeScript, onTimeoutFire, causeExitCode, h, ht,
      isResolveAct, isDisconnectAct]

/-- C10: the non-interactive invocation's completion is write-once.  For
every interleaving of completion causes, the first cause fixes the exit
code and the final state, exactly one resolve and one disconnect happen in
the whole run, and the resolve carries the first cause's exit code. -/
theorem c10_completion_write_once (c : CompletionCause)
    (cs : List CompletionCause) :
    (runCauses initScriptState (c :: cs)).1.isComplete = true ∧
      (runCauses initScriptState (c :: cs)).1.exitCode = causeExitCode c ∧
      (runCauses initScriptState (c :: cs)).2.countP isResolveAct = 1 ∧
      (runCauses initScriptState (c :: cs)).2.countP isDisconnectAct = 1 ∧
      ScriptAct.resolveWith (causeExitCode c) ∈
        (runCauses initScriptState (c :: cs)).2 := by
  obtain ⟨h1, h2, h3, h4⟩ := scriptStep_fresh initScriptState c rfl
  obtain ⟨g1, g2, g3⟩ :=
    runCauses_completed (scriptStep initScriptState c).1 cs (by rw [h1])
  simp only [runCauses, List.countP_append, List.mem_append]
  refine ⟨?_, ?_, ?_, ?_, Or.inl h4⟩
  · rw [g1, h1]
  · rw [g1, h1]
  · rw [h2, g2]
  · rw [h3, g3]

end RooSpec
